import Mathlib

/-!
Verification development for the client-information form
(`src/components/attractive-form.tsx`).

The component's pure logic is shallow-embedded here:
* the zod validation schema `formSchema` becomes `fieldIssues` / `formAccepts`;
* the attachment handlers `handleFileChange` / `handleRemoveFile` become
  state-transformation functions;
* `onSubmit` becomes `onSubmitModel`, a pure function of the component props,
  the component state and an oracle describing the network's behaviour
  (response delay, status and body, or a network failure);
* the JavaScript `JSON.parse` / `JSON.stringify` used by the error-extraction
  code are embedded as an executable JSON parser and serializer.

Conventions: JavaScript string `length` (UTF-16 code units) is modelled by
`String.length` (code points); the two agree on all inputs used below.
Machine integers do not occur (sizes and statuses are plain `Nat`).
-/

/-- A fixed character constant for `"` so that string-handling code never
pattern-matches on escaped character literals. -/
def quoteChar : Char := Char.ofNat 34

/-- A fixed character constant for `\`. -/
def backslashChar : Char := Char.ofNat 92

/-- A fixed character constant for the opening curly brace. -/
def openBraceChar : Char := Char.ofNat 123

/-- A fixed character constant for the closing curly brace. -/
def closeBraceChar : Char := Char.ofNat 125

/-- A fixed character constant for the apostrophe. -/
def apostropheChar : Char := Char.ofNat 39

/-- `charsBegin pat l` holds when the character list `l` starts with `pat`. -/
def charsBegin : List Char → List Char → Bool
  | [], _ => true
  | _ :: _, [] => false
  | p :: ps, t :: ts => p = t && charsBegin ps ts

/-- `charsContain pat l`: the character list `l` has `pat` as a contiguous
sublist.  Used to model JavaScript `String.prototype.includes`. -/
def charsContain (pat : List Char) : List Char → Bool
  | [] => pat.isEmpty
  | c :: ts => charsBegin pat (c :: ts) || charsContain pat ts

/-- JavaScript `s.includes(pat)`. -/
def jsIncludes (s pat : String) : Bool :=
  charsContain pat.toList s.toList

/-! ## The form data model and the zod validation schema -/

/-- The record validated by `formSchema` (file: `attractive-form.tsx`,
`z.object` with the five string fields). -/
structure FormRecord where
  firstName : String
  lastName : String
  email : String
  phone : String
  address : String
deriving DecidableEq

/-- Characters admitted anywhere in the local part of an address by zod's
email regular expression: alphanumerics and `_ ' + - .`. -/
def emailLocalChar (c : Char) : Bool :=
  c.isAlphanum || c = '_' || c = apostropheChar || c = '+' || c = '-' || c = '.'

/-- Characters admitted as the final character of the local part:
alphanumerics and `_ + -` (no dot, no apostrophe). -/
def emailLocalLastChar (c : Char) : Bool :=
  c.isAlphanum || c = '_' || c = '+' || c = '-'

/-- No two consecutive dots anywhere in the string (the regex's negative
lookahead). -/
def noDoubleDot : List Char → Bool
  | '.' :: '.' :: _ => false
  | _ :: rest => noDoubleDot rest
  | [] => true

/-- Split a character list on a separator character; the separators are
dropped and empty segments are kept. -/
def splitChar (sep : Char) : List Char → List (List Char)
  | [] => [[]]
  | c :: rest =>
    let r := splitChar sep rest
    if c = sep then [] :: r
    else
      match r with
      | g :: gs => (c :: g) :: gs
      | [] => [[c]]

/-- Local part of the email: nonempty, every character in the admissible set,
final character in the restricted set. -/
def emailLocalOk (l : List Char) : Bool :=
  !l.isEmpty && l.all emailLocalChar &&
    (match l.getLast? with
     | some c => emailLocalLastChar c
     | none => false)

/-- One pre-TLD domain label: a leading alphanumeric followed by
alphanumerics and hyphens. -/
def emailLabelOk (l : List Char) : Bool :=
  match l with
  | [] => false
  | c :: rest => c.isAlphanum && rest.all (fun x => x.isAlphanum || x = '-')

/-- The final domain label (TLD): at least two characters, letters only. -/
def emailTldOk (l : List Char) : Bool :=
  2 ≤ l.length && l.all Char.isAlpha

/-- The domain part: at least one label, a dot, then a TLD. -/
def emailDomainOk (d : List Char) : Bool :=
  let parts := splitChar '.' d
  2 ≤ parts.length && parts.dropLast.all emailLabelOk &&
    (match parts.getLast? with
     | some t => emailTldOk t
     | none => false)

/-- The email-format check performed by `z.string().email()`.  The zod
library is an external dependency of the repository; this function
transliterates its email regular expression
(case-insensitive, anchored): the string must not start with a dot, must
not contain two consecutive dots, and must be `local@domain` with the local
and domain shapes checked by the helpers above. -/
def zodEmailCheck (s : String) : Bool :=
  let cs := s.toList
  (match cs with
   | '.' :: _ => false
   | _ => true) &&
  noDoubleDot cs &&
  (match splitChar '@' cs with
   | [l, d] => emailLocalOk l && emailDomainOk d
   | _ => false)

/-- The validation issues produced by `formSchema.safeParse` on a record:
one localized message per failing field rule, in field order
(`attractive-form.tsx`, the `z.object({...})` literal). -/
def fieldIssues (d : FormRecord) : List String :=
  (if d.firstName.length < 2 then ["Der Vorname muss mindestens 2 Zeichen lang sein."] else [])
  ++ (if d.lastName.length < 2 then ["Der Nachname muss mindestens 2 Zeichen lang sein."] else [])
  ++ (if zodEmailCheck d.email = true then [] else ["Bitte geben Sie eine gültige E-Mail-Adresse ein."])
  ++ (if d.phone.length < 10 then ["Die Telefonnummer muss mindestens 10 Ziffern haben."] else [])
  ++ (if d.address.length < 5 then ["Die Adresse muss mindestens 5 Zeichen lang sein."] else [])

/-- `zodResolver(formSchema)` accepts the record exactly when `safeParse`
reports no issue. -/
def formAccepts (d : FormRecord) : Bool :=
  (fieldIssues d).isEmpty

/-! ## Attachments -/

/-- The data of a selected `File` object that the component reads:
`name`, `size` (bytes) and `type`.  The MIME type field is called
`mimeType` because `type` is a Lean keyword. -/
structure FileRef where
  name : String
  size : Nat
  mimeType : String
deriving DecidableEq

/-- `allowedTypes` from `handleFileChange`. -/
def allowedTypes : List String :=
  ["application/pdf",
   "application/msword",
   "application/vnd.openxmlformats-officedocument.wordprocessingml.document",
   "text/plain",
   "image/jpeg",
   "image/png"]

/-- `maxSize` from `handleFileChange`: 10 MB in bytes. -/
def maxAttachmentSize : Nat := 10 * 1024 * 1024

/-! ## Component props and state -/

/-- The props of `AttractiveForm`, with the source defaults. -/
structure Props where
  clientEmail : String := ""
  token : String := ""
  missingFields : List String := []
deriving DecidableEq

/-- The `useState` hooks of the component that the submission logic reads or
writes, together with the current form values held by `react-hook-form`.
The presentation-only flags `isClient` and `isEmailPreFilled` are omitted:
no modelled operation reads them. -/
structure ComponentState where
  isSubmitting : Bool
  selectedFile : Option FileRef
  isTokenValid : Option Bool
  values : FormRecord
deriving DecidableEq

/-- `handleFileChange`: the candidate is `event.target.files?.[0] || null`.
A `none` candidate leaves the state alone (the `if (file)` guard); an
invalid type or an oversize file is rejected with the prior selection kept;
otherwise the selection is replaced. -/
def handleFileChange (st : ComponentState) (candidate : Option FileRef) : ComponentState :=
  match candidate with
  | none => st
  | some f =>
    if !(allowedTypes.contains f.mimeType) then st
    else if maxAttachmentSize < f.size then st
    else { st with selectedFile := some f }

/-- `handleRemoveFile`: `setSelectedFile(null)` unconditionally (the toast and
the DOM file-input reset are presentation-only). -/
def handleRemoveFile (st : ComponentState) : ComponentState :=
  { st with selectedFile := none }

/-- The five field names of the form. -/
inductive FieldName
  | firstName
  | lastName
  | email
  | phone
  | address
deriving DecidableEq

/-- Field-wise update of the record (a user edit through the controlled
`Input` components / `react-hook-form` field registration). -/
def setField (d : FormRecord) : FieldName → String → FormRecord
  | .firstName, v => { d with firstName := v }
  | .lastName, v => { d with lastName := v }
  | .email, v => { d with email := v }
  | .phone, v => { d with phone := v }
  | .address, v => { d with address := v }

/-- `updateField` on the component state: only the form values change. -/
def updateField (st : ComponentState) (f : FieldName) (v : String) : ComponentState :=
  { st with values := setField st.values f v }

/-- The token-validation effect (`useEffect` over `[isClient]`): the code
skips real validation and unconditionally runs `setIsTokenValid(true)`,
whatever the token is. -/
def tokenValidationEffect (_token : String) : Option Bool := some true

/-! ## An executable embedding of the JavaScript JSON functions

`onSubmit` uses `JSON.parse` on error bodies and on the success body
(`response.json()`), and `JSON.stringify` on the `missingFields` prop and on
parsed error objects.  The JSON value type and an executable parser and
serializer follow. -/

/-- Parsed JSON values.  Numbers keep their source lexeme: none of the
modelled code computes with them, and JavaScript's number normalization is
irrelevant to every property below. -/
inductive Json
  | null
  | bool (b : Bool)
  | num (lexeme : String)
  | str (s : String)
  | arr (elems : List Json)
  | obj (fields : List (String × Json))

/-- JSON whitespace. -/
def isJsonWs (c : Char) : Bool :=
  c = ' ' || c = Char.ofNat 9 || c = Char.ofNat 10 || c = Char.ofNat 13

/-- Drop leading JSON whitespace. -/
def skipWs (l : List Char) : List Char :=
  l.dropWhile isJsonWs

/-- Hexadecimal digit value. -/
def hexVal (c : Char) : Option Nat :=
  if '0' ≤ c && c ≤ '9' then some (c.toNat - 48)
  else if 'a' ≤ c && c ≤ 'f' then some (c.toNat - 87)
  else if 'A' ≤ c && c ≤ 'F' then some (c.toNat - 55)
  else none

/-- The single-character string escapes of JSON. -/
def escCharValue (e : Char) : Option Char :=
  if e = quoteChar then some quoteChar
  else if e = backslashChar then some backslashChar
  else if e = '/' then some '/'
  else if e = 'b' then some (Char.ofNat 8)
  else if e = 'f' then some (Char.ofNat 12)
  else if e = 'n' then some (Char.ofNat 10)
  else if e = 'r' then some (Char.ofNat 13)
  else if e = 't' then some (Char.ofNat 9)
  else none

/-- Parse the body of a JSON string literal (the opening quote already
consumed), returning the decoded string and the remaining input.  Raw
control characters are rejected, as in `JSON.parse`.  A `\uXXXX` escape maps
to the character of that code; lone surrogate code units (which Lean's
`Char` cannot hold) map to the default character, a corner no property below
touches. -/
def parseStringBody : List Char → Option (String × List Char)
  | [] => none
  | c :: rest =>
    if c = quoteChar then some ("", rest)
    else if c = backslashChar then
      match rest with
      | 'u' :: a :: b :: c2 :: d :: r2 =>
        match hexVal a, hexVal b, hexVal c2, hexVal d with
        | some ha, some hb, some hc, some hd =>
          (parseStringBody r2).map
            (fun p => (String.mk (Char.ofNat (((ha * 16 + hb) * 16 + hc) * 16 + hd) :: p.1.toList), p.2))
        | _, _, _, _ => none
      | e :: r2 =>
        match escCharValue e with
        | some ec => (parseStringBody r2).map (fun p => (String.mk (ec :: p.1.toList), p.2))
        | none => none
      | [] => none
    else if c.toNat < 32 then none
    else (parseStringBody rest).map (fun p => (String.mk (c :: p.1.toList), p.2))

/-- Characters that can occur in a JSON number lexeme. -/
def numChar (c : Char) : Bool :=
  c.isDigit || c = '-' || c = '+' || c = '.' || c = 'e' || c = 'E'

/-- Consume an optional fraction part. -/
def chompFrac : List Char → Option (List Char)
  | '.' :: r =>
    match r.takeWhile Char.isDigit with
    | [] => none
    | _ => some (r.dropWhile Char.isDigit)
  | l => some l

/-- Consume the digits of an exponent, after an optional sign. -/
def chompExpDigits (l : List Char) : Option (List Char) :=
  let l1 := match l with
    | '+' :: r => r
    | '-' :: r => r
    | r => r
  match l1.takeWhile Char.isDigit with
  | [] => none
  | _ => some (l1.dropWhile Char.isDigit)

/-- Consume an optional exponent part. -/
def chompExp : List Char → Option (List Char)
  | 'e' :: r => chompExpDigits r
  | 'E' :: r => chompExpDigits r
  | l => some l

/-- The JSON number grammar: `-? (0 | [1-9][0-9]*) frac? exp?`, consuming the
whole lexeme. -/
def validNumberLexeme (l : List Char) : Bool :=
  let l1 := match l with
    | '-' :: r => r
    | r => r
  let afterInt : Option (List Char) :=
    match l1 with
    | '0' :: r => some r
    | c :: r => if c.isDigit then some (r.dropWhile Char.isDigit) else none
    | [] => none
  match afterInt with
  | none => false
  | some r1 =>
    match chompFrac r1 with
    | none => false
    | some r2 =>
      match chompExp r2 with
      | none => false
      | some r3 => r3.isEmpty

/-- Greedily read a number lexeme and validate it against the grammar. -/
def parseNumberTok (cs : List Char) : Option (Json × List Char) :=
  let tok := cs.takeWhile numChar
  if validNumberLexeme tok then some (Json.num (String.mk tok), cs.dropWhile numChar) else none

/-- Insert a member into an object's field list, replacing an existing
binding of the same key in place (JavaScript object assignment). -/
def setMember : List (String × Json) → String → Json → List (String × Json)
  | [], k, v => [(k, v)]
  | (k', v') :: rest, k, v =>
    if k' = k then (k, v) :: rest else (k', v') :: setMember rest k v

mutual

/-- Parse one JSON value, fuel-bounded.  Callers supply fuel at least
`2 * length + 4`, which every input needs at most. -/
def parseVal : Nat → List Char → Option (Json × List Char)
  | 0, _ => none
  | fuel + 1, cs =>
    match skipWs cs with
    | 'n' :: 'u' :: 'l' :: 'l' :: rest => some (.null, rest)
    | 't' :: 'r' :: 'u' :: 'e' :: rest => some (.bool true, rest)
    | 'f' :: 'a' :: 'l' :: 's' :: 'e' :: rest => some (.bool false, rest)
    | c :: rest =>
      if c = quoteChar then (parseStringBody rest).map (fun p => (Json.str p.1, p.2))
      else if c = '[' then
        match skipWs rest with
        | c2 :: r2 => if c2 = ']' then some (.arr [], r2) else parseElems fuel (c2 :: r2) []
        | [] => none
      else if c = openBraceChar then
        match skipWs rest with
        | c2 :: r2 => if c2 = closeBraceChar then some (.obj [], r2) else parseMembers fuel (c2 :: r2) []
        | [] => none
      else parseNumberTok (c :: rest)
    | [] => none

/-- Parse the elements of a nonempty array, accumulating left to right. -/
def parseElems : Nat → List Char → List Json → Option (Json × List Char)
  | 0, _, _ => none
  | fuel + 1, cs, acc =>
    match parseVal fuel cs with
    | none => none
    | some (v, rest) =>
      match skipWs rest with
      | ',' :: r2 => parseElems fuel r2 (acc ++ [v])
      | ']' :: r2 => some (.arr (acc ++ [v]), r2)
      | _ => none

/-- Parse the members of a nonempty object.  A repeated key overwrites the
earlier value in place, as a JavaScript object does. -/
def parseMembers : Nat → List Char → List (String × Json) → Option (Json × List Char)
  | 0, _, _ => none
  | fuel + 1, cs, acc =>
    match skipWs cs with
    | c :: rest =>
      if c = quoteChar then
        match parseStringBody rest with
        | none => none
        | some (k, r1) =>
          match skipWs r1 with
          | ':' :: r2 =>
            match parseVal fuel r2 with
            | none => none
            | some (v, r3) =>
              match skipWs r3 with
              | ',' :: r4 => parseMembers fuel r4 (setMember acc k v)
              | c4 :: r4 =>
                if c4 = closeBraceChar then some (.obj (setMember acc k v), r4) else none
              | [] => none
          | _ => none
      else none
    | [] => none

end

/-- `JSON.parse` on a whole text: parse one value and require only
whitespace after it. -/
def parseJsonText (s : String) : Option Json :=
  let cs := s.toList
  match parseVal (2 * cs.length + 4) cs with
  | some (v, rest) => if (skipWs rest).isEmpty then some v else none
  | none => none

/-- One lowercase hexadecimal digit. -/
def hexDigitChar (n : Nat) : Char :=
  if n < 10 then Char.ofNat (48 + n) else Char.ofNat (87 + n % 6)

/-- `JSON.stringify` escaping of one string character. -/
def escapeChar (c : Char) : String :=
  if c = quoteChar then String.mk [backslashChar, quoteChar]
  else if c = backslashChar then String.mk [backslashChar, backslashChar]
  else if c = Char.ofNat 8 then String.mk [backslashChar, 'b']
  else if c = Char.ofNat 9 then String.mk [backslashChar, 't']
  else if c = Char.ofNat 10 then String.mk [backslashChar, 'n']
  else if c = Char.ofNat 12 then String.mk [backslashChar, 'f']
  else if c = Char.ofNat 13 then String.mk [backslashChar, 'r']
  else if c.toNat < 32 then
    String.mk [backslashChar, 'u', '0', '0', hexDigitChar (c.toNat / 16), hexDigitChar (c.toNat % 16)]
  else String.mk [c]

/-- `JSON.stringify` escaping of a whole string body. -/
def escapeJson : List Char → String
  | [] => ""
  | c :: r => escapeChar c ++ escapeJson r

/-- A string rendered as a JSON string literal. -/
def quoteJsonString (s : String) : String :=
  String.mk [quoteChar] ++ escapeJson s.toList ++ String.mk [quoteChar]

mutual

/-- `JSON.stringify` (default compact form, no spacing). -/
def stringifyJson : Json → String
  | .null => "null"
  | .bool true => "true"
  | .bool false => "false"
  | .num l => l
  | .str s => quoteJsonString s
  | .arr xs => "[" ++ stringifyArr xs ++ "]"
  | .obj fs => String.mk [openBraceChar] ++ stringifyObj fs ++ String.mk [closeBraceChar]

/-- Serialize array elements, comma-separated. -/
def stringifyArr : List Json → String
  | [] => ""
  | [x] => stringifyJson x
  | x :: y :: rest => stringifyJson x ++ "," ++ stringifyArr (y :: rest)

/-- Serialize object members, comma-separated. -/
def stringifyObj : List (String × Json) → String
  | [] => ""
  | [(k, v)] => quoteJsonString k ++ ":" ++ stringifyJson v
  | (k, v) :: m :: rest => quoteJsonString k ++ ":" ++ stringifyJson v ++ "," ++ stringifyObj (m :: rest)

end

mutual

/-- JavaScript `String(value)` coercion for parsed JSON values, as applied by
`new Error(errorMessage)` when a non-string lands in `errorMessage`.
Number lexemes are kept verbatim (JavaScript would normalize them; no
property below depends on a numeric `detail`). -/
def jsToString : Json → String
  | .null => "null"
  | .bool true => "true"
  | .bool false => "false"
  | .num l => l
  | .str s => s
  | .arr xs => jsArrJoin xs
  | .obj _ => "[object Object]"

/-- `Array.prototype.join(",")` as used by array-to-string coercion: `null`
elements become empty strings. -/
def jsArrJoin : List Json → String
  | [] => ""
  | [Json.null] => ""
  | [x] => jsToString x
  | Json.null :: y :: rest => "," ++ jsArrJoin (y :: rest)
  | x :: y :: rest => jsToString x ++ "," ++ jsArrJoin (y :: rest)

end

/-- JavaScript truthiness of a parsed JSON value. -/
def truthyJson : Json → Bool
  | .null => false
  | .bool b => b
  | .num l => !((l.toList.takeWhile (fun c => c ≠ 'e' && c ≠ 'E')).all (fun c => !c.isDigit || c = '0'))
  | .str s => s ≠ ""
  | .arr _ => true
  | .obj _ => true

/-- JavaScript property access `value[k]` on a parsed JSON value: a field of
an object, `undefined` (here `none`) on every non-object. -/
def jsGetField : Json → String → Option Json
  | .obj fs, k => (fs.find? (fun kv => kv.1 = k)).map (fun kv => kv.2)
  | _, _ => none

/-- Truthiness of a possibly-`undefined` value. -/
def truthyOpt : Option Json → Bool
  | none => false
  | some v => truthyJson v

/-! ## The submission workflow -/

/-- The values appended to the multipart `FormData` payload. -/
inductive PayloadValue
  | str (s : String)
  | file (f : FileRef)
deriving DecidableEq

/-- The multipart payload built by `onSubmit`: the five record fields in
declaration order, then `token` when the token prop is truthy, then
`missingFields` (JSON-encoded) when that list is nonempty, then `document`
when a file is selected. -/
def buildPayload (p : Props) (file : Option FileRef) (d : FormRecord) : List (String × PayloadValue) :=
  [("firstName", PayloadValue.str d.firstName),
   ("lastName", PayloadValue.str d.lastName),
   ("email", PayloadValue.str d.email),
   ("phone", PayloadValue.str d.phone),
   ("address", PayloadValue.str d.address)]
  ++ (if p.token ≠ "" then [("token", PayloadValue.str p.token)] else [])
  ++ (if 0 < p.missingFields.length then
        [("missingFields", PayloadValue.str (stringifyJson (Json.arr (p.missingFields.map Json.str))))]
      else [])
  ++ (match file with
      | some f => [("document", PayloadValue.file f)]
      | none => [])

/-- The field names of a payload. -/
def payloadKeys (p : Props) (file : Option FileRef) (d : FormRecord) : List String :=
  (buildPayload p file d).map (fun kv => kv.1)

/-- The `setTimeout(() => controller.abort(), 30000)` deadline, in
milliseconds. -/
def timeoutMs : Nat := 30000

/-- The network's behaviour for one submission, an oracle of the model:
either the endpoint answers after `delay` milliseconds with a status and a
body (`none` standing for a body that `response.text()` / `response.json()`
cannot read), or the request fails outright (`fetch` rejects with
`TypeError: Failed to fetch`). -/
inductive NetworkBehavior
  | respond (delay : Nat) (status : Nat) (body : Option String)
  | netFail
deriving DecidableEq

/-- What `await fetch(...)` observes under the abort deadline. -/
inductive FetchOutcome
  | timedOut
  | failedToFetch
  | response (status : Nat) (body : Option String)
deriving DecidableEq

/-- Resolve the oracle against the 30-second deadline: a response that takes
longer than `timeoutMs` is aborted (`AbortError`). -/
def resolveFetch : NetworkBehavior → FetchOutcome
  | .respond delay status body =>
    if timeoutMs < delay then .timedOut else .response status body
  | .netFail => .failedToFetch

/-- The errors that the `try` block of `onSubmit` can throw: the abort of the
timed-out request, a plain `Error` (including the server-error message built
for a non-2xx status and the `TypeError` of a failed fetch), or the
`SyntaxError` of `response.json()` on an unparseable success body. -/
inductive JsError
  | abortError
  | error (msg : String)
  | jsonDecodeError
deriving DecidableEq

/-- Strip one leading and one trailing `"`, the effect of
`errorText.replace(/^"|"$/g, '')`. -/
def stripWrappingQuotes (s : String) : String :=
  let l := s.toList
  let l1 := match l with
    | c :: rest => if c = quoteChar then rest else l
    | [] => l
  let l2 := match l1.getLast? with
    | some c => if c = quoteChar then l1.dropLast else l1
    | none => l1
  String.mk l2

/-- The message of the server-error `Error` thrown on a non-2xx response
(`onSubmit`, the `if (!response.ok)` block): start from the generic
status-code message; an unreadable or empty body keeps it; otherwise strip
wrapping quotes and `JSON.parse` — on a parse failure, or on `null` (whose
property access throws into the same `catch`), the raw body text; otherwise
the first truthy of `detail` and `message` (coerced to a string), and
failing both, the re-serialized value. -/
def computeErrorMessage (status : Nat) (body : Option String) : String :=
  let generic := "Server error! Status: " ++ toString status
  match body with
  | none => generic
  | some t =>
    if t = "" then generic
    else
      match parseJsonText (stripWrappingQuotes t) with
      | none => t
      | some Json.null => t
      | some v =>
        let d := jsGetField v "detail"
        let m := jsGetField v "message"
        if truthyOpt d then jsToString (d.getD Json.null)
        else if truthyOpt m then jsToString (m.getD Json.null)
        else stringifyJson v

/-- The timeout error description (`AbortError` branch of the `catch`). -/
def timeoutErrorMsg : String :=
  "Die Verbindung zum Server hat zu lange gedauert. Bitte überprüfen Sie Ihre Internetverbindung und versuchen Sie es erneut."

/-- The network-failure description (`Failed to fetch` branch). -/
def serverDownMsg : String :=
  "Verbindung zum Server fehlgeschlagen. Bitte stellen Sie sicher, dass der Server läuft."

/-- The expired-link description (`Invalid or expired token` branch). -/
def expiredLinkMsg : String :=
  "Dieser Formular-Link ist abgelaufen. Bitte fordern Sie einen neuen Link an."

/-- The default description used when the caught value is not an `Error`. -/
def fallbackErrorMsg : String :=
  "Bitte versuchen Sie es später erneut."

/-- The description of the pre-network token rejection toast. -/
def invalidLinkToastMsg : String :=
  "Dieser Formular-Link ist abgelaufen oder ungültig."

/-- The message text of the `SyntaxError` thrown by `response.json()`; the
exact text is engine-specific (this is the V8 text for an empty body), and
no property below depends on it. -/
def jsonDecodeSurface : String := "Unexpected end of JSON input"

/-- The `catch` block of `onSubmit`: an `AbortError` surfaces the timeout
message; otherwise a message containing `Failed to fetch` surfaces the
network-failure text, one containing `Invalid or expired token` the
expired-link text, and any other `Error` its own message. -/
def surfaceCatch : JsError → String
  | .abortError => timeoutErrorMsg
  | .jsonDecodeError => jsonDecodeSurface
  | .error m =>
    if jsIncludes m ("Failed to fetch") then serverDownMsg
    else if jsIncludes m ("Invalid or expired token") then expiredLinkMsg
    else m

/-- How one call of `onSubmit` ended. -/
inductive SubmitOutcome
  | blockedByValidation
  | blockedByToken
  | success
  | failed (e : JsError)
deriving DecidableEq

/-- Everything observable about one submission attempt: the final component
state, how it ended, the fetch calls that were issued (with their payloads),
and whether the delayed redirect to `/success` was scheduled. -/
structure SubmitTrace where
  finalState : ComponentState
  outcome : SubmitOutcome
  requests : List (List (String × PayloadValue))
  redirected : Bool
deriving DecidableEq

/-- `onSubmit(data)` with `data` the current form values.  The token gate
runs first and returns before any state change or network call; otherwise
`isSubmitting` is set and the single `fetch` is issued; the `finally` clause
clears `isSubmitting` on every path.  A 2xx response has its body parsed by
`response.json()` — only a parseable body reaches the reset (empty fields,
the `clientEmail` prop kept as the email, the file cleared) and the
2-second-delayed redirect; every thrown error lands in the `catch`. -/
def onSubmitModel (p : Props) (st : ComponentState) (net : NetworkBehavior) : SubmitTrace :=
  if p.token ≠ "" ∧ st.isTokenValid = some false then
    { finalState := st, outcome := .blockedByToken, requests := [], redirected := false }
  else
    let payload := buildPayload p st.selectedFile st.values
    let base : ComponentState := { st with isSubmitting := false }
    match resolveFetch net with
    | .timedOut =>
      { finalState := base, outcome := .failed .abortError, requests := [payload], redirected := false }
    | .failedToFetch =>
      { finalState := base, outcome := .failed (.error ("Failed to fetch")),
        requests := [payload], redirected := false }
    | .response status body =>
      if 200 ≤ status ∧ status ≤ 299 then
        match body with
        | some b =>
          match parseJsonText b with
          | some _ =>
            { finalState :=
                { base with
                  selectedFile := none,
                  values :=
                    { firstName := "", lastName := "", email := p.clientEmail,
                      phone := "", address := "" } },
              outcome := .success, requests := [payload], redirected := true }
          | none =>
            { finalState := base, outcome := .failed .jsonDecodeError,
              requests := [payload], redirected := false }
        | none =>
          { finalState := base, outcome := .failed .jsonDecodeError,
            requests := [payload], redirected := false }
      else
        { finalState := base, outcome := .failed (.error (computeErrorMessage status body)),
          requests := [payload], redirected := false }

/-- `form.handleSubmit(onSubmit)`: the resolver runs the schema first, and an
invalid record never reaches `onSubmit` (inline errors only, no state
change, no network call). -/
def handleFormSubmit (p : Props) (st : ComponentState) (net : NetworkBehavior) : SubmitTrace :=
  if formAccepts st.values then onSubmitModel p st net
  else { finalState := st, outcome := .blockedByValidation, requests := [], redirected := false }

/-- The description text of the error toast a trace surfaces, when any. -/
def surfacedToastDescription (t : SubmitTrace) : Option String :=
  match t.outcome with
  | .failed e => some (surfaceCatch e)
  | .blockedByToken => some invalidLinkToastMsg
  | .success => none
  | .blockedByValidation => none

/-! ## Sample inputs shared by the witnesses -/

/-- A record satisfying every field rule. -/
def goodRec : FormRecord :=
  { firstName := "Max", lastName := "Mustermann", email := "max@example.com",
    phone := "0123456789", address := "Hauptstrasse 1" }

/-- A record whose first name fails the minimum-length rule. -/
def shortNameRec : FormRecord :=
  { goodRec with firstName := "M" }

/-- A quiescent state: no submission in flight, token already marked valid. -/
def sampleState (v : FormRecord) (file : Option FileRef) : ComponentState :=
  { isSubmitting := false, selectedFile := file, isTokenValid := some true, values := v }

/-- A small PDF attachment, satisfying both selection constraints. -/
def samplePdf : FileRef :=
  { name := "doc.pdf", size := 1024, mimeType := "application/pdf" }

/-- An executable attachment, violating the type constraint. -/
def sampleExe : FileRef :=
  { name := "a.exe", size := 1024, mimeType := "application/x-msdownload" }

/-! ## Claims -/

/-- Claim C1: `formSchema` validation accepts a record exactly when the first
name has length at least 2, the last name length at least 2, the email
passes the format check, the phone length is at least 10 and the address
length at least 5; and a record failing any rule has submission blocked by
the resolver — no network request is issued and the state is untouched. -/
theorem claim_C1 (d : FormRecord) :
    (formAccepts d = true ↔
      (2 ≤ d.firstName.length ∧ 2 ≤ d.lastName.length ∧ zodEmailCheck d.email = true ∧
        10 ≤ d.phone.length ∧ 5 ≤ d.address.length))
    ∧ (∀ (p : Props) (st : ComponentState) (net : NetworkBehavior),
        st.values = d → formAccepts d = false →
          (handleFormSubmit p st net).requests = [] ∧ (handleFormSubmit p st net).finalState = st) := by
  constructor
  · unfold formAccepts fieldIssues
    split_ifs <;> simp_all
  · intro p st net hv hacc
    rw [handleFormSubmit, hv, hacc]
    exact ⟨rfl, rfl⟩

/-- Witness for C1 at a concrete failing record. -/
theorem claim_C1_witness :
    (handleFormSubmit {} (sampleState shortNameRec none) .netFail).requests = [] :=
  ((claim_C1 shortNameRec).2 {} (sampleState shortNameRec none) .netFail rfl (by decide)).1

/-- Claim C2: `handleFileChange` replaces the stored attachment exactly when
the candidate's MIME type is allowed and its size is at most 10 MiB;
otherwise the whole state — in particular the prior attachment — is
unchanged. -/
theorem claim_C2 (st : ComponentState) (f : FileRef) :
    handleFileChange st (some f) =
      (if allowedTypes.contains f.mimeType ∧ f.size ≤ maxAttachmentSize
       then { st with selectedFile := some f } else st) := by
  unfold handleFileChange
  by_cases h1 : f.mimeType ∈ allowedTypes
  · by_cases h2 : f.size ≤ maxAttachmentSize
    · simp [h1, h2, Nat.not_lt.mpr h2]
    · simp [h1, h2, Nat.lt_of_not_le h2]
  · simp [h1]

/-- Claim C9: `handleRemoveFile` clears the attachment in every state, is the
identity on a state with no attachment, and is idempotent. -/
theorem claim_C9 :
    (∀ st : ComponentState, (handleRemoveFile st).selectedFile = none)
    ∧ (∀ st : ComponentState, st.selectedFile = none → handleRemoveFile st = st)
    ∧ (∀ st : ComponentState, handleRemoveFile (handleRemoveFile st) = handleRemoveFile st) := by
  refine ⟨fun st => rfl, fun st h => ?_, fun st => rfl⟩
  cases st
  simp_all [handleRemoveFile]

/-- Witness for C9 on a concrete attachment-free state. -/
theorem claim_C9_witness :
    handleRemoveFile (sampleState goodRec none) = sampleState goodRec none :=
  claim_C9.2.1 (sampleState goodRec none) rfl

/-- Helper: when the token gate does not fire, `onSubmit` never ends in the
token-blocked outcome. -/
theorem outcome_ne_blocked_of_gate_off (p : Props) (st : ComponentState) (net : NetworkBehavior)
    (h : ¬ (p.token ≠ "" ∧ st.isTokenValid = some false)) :
    (onSubmitModel p st net).outcome ≠ SubmitOutcome.blockedByToken := by
  unfold onSubmitModel
  rw [if_neg h]
  cases hr : resolveFetch net with
  | timedOut => simp
  | failedToFetch => simp
  | response status body =>
    by_cases h2 : 200 ≤ status ∧ status ≤ 299
    · cases body with
      | none => simp [h2]
      | some b => cases hp : parseJsonText b <;> simp [h2, hp]
    · simp [h2]

/-- Helper: when the token gate does not fire, exactly one fetch is issued,
carrying the multipart payload. -/
theorem requests_eq_of_gate_off (p : Props) (st : ComponentState) (net : NetworkBehavior)
    (h : ¬ (p.token ≠ "" ∧ st.isTokenValid = some false)) :
    (onSubmitModel p st net).requests = [buildPayload p st.selectedFile st.values] := by
  unfold onSubmitModel
  rw [if_neg h]
  cases hr : resolveFetch net with
  | timedOut => simp
  | failedToFetch => simp
  | response status body =>
    by_cases h2 : 200 ≤ status ∧ status ≤ 299
    · cases body with
      | none => simp [h2]
      | some b => cases hp : parseJsonText b <;> simp [h2, hp]
    · simp [h2]

/-- Helper: on every path of `onSubmit` that passes the token gate, the
`finally` clause leaves `isSubmitting` false, and the attachment is either
kept or cleared. -/
theorem finalState_of_gate_off (p : Props) (st : ComponentState) (net : NetworkBehavior)
    (h : ¬ (p.token ≠ "" ∧ st.isTokenValid = some false)) :
    (onSubmitModel p st net).finalState.isSubmitting = false
    ∧ ((onSubmitModel p st net).finalState.selectedFile = st.selectedFile
        ∨ (onSubmitModel p st net).finalState.selectedFile = none) := by
  unfold onSubmitModel
  rw [if_neg h]
  cases hr : resolveFetch net with
  | timedOut => simp
  | failedToFetch => simp
  | response status body =>
    by_cases h2 : 200 ≤ status ∧ status ≤ 299
    · cases body with
      | none => simp [h2]
      | some b => cases hp : parseJsonText b <;> simp [h2, hp]
    · simp [h2]

/-- Claim C7: a supplied token that has been marked invalid makes `onSubmit`
return immediately — a visible rejection toast, no state change and no
fetch; yet the validation effect marks every token valid, so no state it
produces can ever take that branch. -/
theorem claim_C7 :
    (∀ (p : Props) (st : ComponentState) (net : NetworkBehavior),
        p.token ≠ "" → st.isTokenValid = some false →
          onSubmitModel p st net =
            { finalState := st, outcome := .blockedByToken, requests := [], redirected := false }
            ∧ surfacedToastDescription (onSubmitModel p st net) = some invalidLinkToastMsg)
    ∧ (∀ t : String, tokenValidationEffect t = some true)
    ∧ (∀ (p : Props) (st : ComponentState) (net : NetworkBehavior),
        st.isTokenValid ≠ some false →
          (onSubmitModel p st net).outcome ≠ SubmitOutcome.blockedByToken) := by
  refine ⟨?_, fun _ => rfl, ?_⟩
  · intro p st net h1 h2
    have hg : onSubmitModel p st net =
        { finalState := st, outcome := .blockedByToken, requests := [], redirected := false } := by
      unfold onSubmitModel
      rw [if_pos ⟨h1, h2⟩]
    exact ⟨hg, by rw [hg]; rfl⟩
  · intro p st net h
    exact outcome_ne_blocked_of_gate_off p st net (fun hc => h hc.2)

/-- Witness for C7: the gate fires on a concrete invalid-token state, and
cannot fire once the stub effect has marked the token valid. -/
theorem claim_C7_witness :
    (onSubmitModel { token := "t" }
        { isSubmitting := false, selectedFile := none, isTokenValid := some false, values := goodRec }
        .netFail).outcome = SubmitOutcome.blockedByToken
    ∧ (onSubmitModel { token := "t" } (sampleState goodRec none) .netFail).outcome
        ≠ SubmitOutcome.blockedByToken := by
  refine ⟨?_, claim_C7.2.2 _ _ _ (by decide)⟩
  rw [(claim_C7.1 { token := "t" }
    { isSubmitting := false, selectedFile := none, isTokenValid := some false, values := goodRec }
    .netFail (by decide) rfl).1]

/-- Claim C5: whatever the outcome — blocked by validation, blocked by the
token gate, success, timeout, network failure or server error — a submit
attempt started from an idle state ends with `isSubmitting` false. -/
theorem claim_C5 (p : Props) (st : ComponentState) (net : NetworkBehavior)
    (h : st.isSubmitting = false) :
    (handleFormSubmit p st net).finalState.isSubmitting = false := by
  unfold handleFormSubmit
  by_cases hv : formAccepts st.values
  · rw [if_pos hv]
    by_cases hg : p.token ≠ "" ∧ st.isTokenValid = some false
    · unfold onSubmitModel
      rw [if_pos hg]
      exact h
    · exact (finalState_of_gate_off p st net hg).1
  · rw [if_neg hv]
    exact h

/-- Witness for C5 on a concrete idle state and a failing network. -/
theorem claim_C5_witness :
    (handleFormSubmit {} (sampleState goodRec none) .netFail).finalState.isSubmitting = false :=
  claim_C5 {} (sampleState goodRec none) .netFail rfl

/-- Claim C10: an empty token (the prop default) behaves as an absent one —
the token gate can never fire and no `token` field is put in the payload —
and the `missingFields` field is in the payload exactly when the list is
nonempty. -/
theorem claim_C10 :
    (∀ (p : Props) (st : ComponentState) (net : NetworkBehavior),
        p.token = "" → (onSubmitModel p st net).outcome ≠ SubmitOutcome.blockedByToken)
    ∧ (∀ (p : Props) (file : Option FileRef) (d : FormRecord),
        p.token = "" → "token" ∉ payloadKeys p file d)
    ∧ (∀ (p : Props) (file : Option FileRef) (d : FormRecord),
        ("missingFields" ∈ payloadKeys p file d ↔ p.missingFields ≠ [])) := by
  refine ⟨?_, ?_, ?_⟩
  · intro p st net h
    exact outcome_ne_blocked_of_gate_off p st net (fun hc => hc.1 h)
  · intro p file d h
    unfold payloadKeys buildPayload
    rw [if_neg (by simp [h])]
    by_cases hm : 0 < p.missingFields.length
    · cases file <;> simp [hm]
    · cases file <;> simp [hm]
  · intro p file d
    unfold payloadKeys buildPayload
    by_cases hm : p.missingFields = []
    · by_cases ht : p.token ≠ "" <;> cases file <;> simp [ht, hm]
    · have hl : 0 < p.missingFields.length := List.length_pos.mpr hm
      by_cases ht : p.token ≠ "" <;> cases file <;> simp [ht, hm, hl]

/-- Witness for C10 at concrete props. -/
theorem claim_C10_witness :
    (onSubmitModel {} (sampleState goodRec none) .netFail).outcome ≠ SubmitOutcome.blockedByToken
    ∧ "token" ∉ payloadKeys {} none goodRec
    ∧ ("missingFields" ∈ payloadKeys { missingFields := ["phone"] } none goodRec
        ↔ ({ missingFields := ["phone"] } : Props).missingFields ≠ []) :=
  ⟨claim_C10.1 {} (sampleState goodRec none) .netFail rfl,
   claim_C10.2.1 {} none goodRec rfl,
   claim_C10.2.2 { missingFields := ["phone"] } none goodRec⟩

/-- The two-character text of an empty JSON object. -/
def emptyJsonBody : String := String.mk [openBraceChar, closeBraceChar]

/-- Claim C3 (amended): a valid record submitted against a 2xx response
whose body is valid JSON leaves every field empty except the email, which is
reset to the externally supplied pre-filled address (empty when none was
supplied), and clears the attachment. -/
theorem claim_C3 (p : Props) (st : ComponentState) (delay status : Nat) (b : String) (v : Json)
    (hv : formAccepts st.values = true)
    (hg : ¬ (p.token ≠ "" ∧ st.isTokenValid = some false))
    (hdelay : delay ≤ timeoutMs)
    (hok : 200 ≤ status ∧ status ≤ 299)
    (hbody : parseJsonText b = some v) :
    (handleFormSubmit p st (.respond delay status (some b))).finalState.values =
      { firstName := "", lastName := "", email := p.clientEmail, phone := "", address := "" }
    ∧ (handleFormSubmit p st (.respond delay status (some b))).finalState.selectedFile = none := by
  unfold handleFormSubmit onSubmitModel resolveFetch
  rw [if_pos hv, if_neg hg]
  simp [Nat.not_lt.mpr hdelay, hok, hbody]

/-- Witness for C3 at a concrete pre-filled email, 200-status and `{}` body. -/
theorem claim_C3_witness :
    (handleFormSubmit { clientEmail := "max@example.com" } (sampleState goodRec (some samplePdf))
        (.respond 0 200 (some emptyJsonBody))).finalState.values =
      { firstName := "", lastName := "", email := "max@example.com", phone := "", address := "" }
    ∧ (handleFormSubmit { clientEmail := "max@example.com" } (sampleState goodRec (some samplePdf))
        (.respond 0 200 (some emptyJsonBody))).finalState.selectedFile = none :=
  claim_C3 { clientEmail := "max@example.com" } (sampleState goodRec (some samplePdf))
    0 200 emptyJsonBody (Json.obj []) (by decide) (by decide) (by decide) (by decide) rfl

/-- Counterexample for C3 as stated: a 2xx response whose body is not JSON
(here an empty body) makes `response.json()` throw, so the fields are not
reset — the first name keeps its submitted value. -/
theorem claim_C3_counterexample :
    (handleFormSubmit {} (sampleState goodRec none)
        (.respond 0 200 (some ""))).finalState.values.firstName = "Max"
    ∧ ("Max" : String) ≠ "" :=
  ⟨rfl, by decide⟩

/-- A present attachment satisfies the selection-time constraints. -/
def attachmentOk : Option FileRef → Bool
  | none => true
  | some f => allowedTypes.contains f.mimeType && decide (f.size ≤ maxAttachmentSize)

/-- Claim C8: the attachment invariant — a stored file has an allowed type
and a size of at most 10 MiB — holds after `handleFileChange`,
`handleRemoveFile`, `updateField` and a full submit; and submission never
rechecks it: any stored file, constraint-satisfying or not, is put in the
payload unconditionally. -/
theorem claim_C8 :
    (∀ (st : ComponentState) (c : Option FileRef),
        attachmentOk st.selectedFile = true →
          attachmentOk (handleFileChange st c).selectedFile = true)
    ∧ (∀ st : ComponentState, attachmentOk (handleRemoveFile st).selectedFile = true)
    ∧ (∀ (st : ComponentState) (f : FieldName) (v : String),
        (updateField st f v).selectedFile = st.selectedFile)
    ∧ (∀ (p : Props) (st : ComponentState) (net : NetworkBehavior),
        attachmentOk st.selectedFile = true →
          attachmentOk (handleFormSubmit p st net).finalState.selectedFile = true)
    ∧ (∀ (p : Props) (d : FormRecord) (f : FileRef),
        ("document", PayloadValue.file f) ∈ buildPayload p (some f) d) := by
  refine ⟨?_, fun st => rfl, fun st f v => rfl, ?_, ?_⟩
  · intro st c h
    cases c with
    | none => exact h
    | some f =>
      unfold handleFileChange
      by_cases h1 : f.mimeType ∈ allowedTypes
      · by_cases h2 : maxAttachmentSize < f.size
        · simp only [h1, h2]
          simpa using h
        · simp [attachmentOk, h1, h2, Nat.le_of_not_lt h2]
      · simpa [h1] using h
  · intro p st net h
    unfold handleFormSubmit
    by_cases hv : formAccepts st.values
    · rw [if_pos hv]
      by_cases hg : p.token ≠ "" ∧ st.isTokenValid = some false
      · unfold onSubmitModel
        rw [if_pos hg]
        exact h
      · rcases (finalState_of_gate_off p st net hg).2 with hkeep | hnone
        · rw [hkeep]; exact h
        · rw [hnone]; rfl
    · rw [if_neg hv]
      exact h
  · intro p d f
    unfold buildPayload
    simp

/-- Witness for C8: the invariant survives a concrete rejected selection,
and a constraint-violating stored file still lands in the payload. -/
theorem claim_C8_witness :
    attachmentOk (handleFileChange (sampleState goodRec (some samplePdf))
        (some sampleExe)).selectedFile = true
    ∧ ("document", PayloadValue.file sampleExe) ∈ buildPayload {} (some sampleExe) goodRec :=
  ⟨claim_C8.1 (sampleState goodRec (some samplePdf)) (some sampleExe) (by decide),
   claim_C8.2.2.2.2 {} goodRec sampleExe⟩

/-- Claim C6: one fetch per submit run, a 30000 ms deadline; a response
slower than the deadline is aborted, surfaces the timeout-specific message
— distinct from the generic and the network-failure texts — and the
controller is idle again. -/
theorem claim_C6 (p : Props) (st : ComponentState) (net : NetworkBehavior)
    (hv : formAccepts st.values = true)
    (hg : ¬ (p.token ≠ "" ∧ st.isTokenValid = some false)) :
    timeoutMs = 30000
    ∧ (handleFormSubmit p st net).requests.length = 1
    ∧ (∀ delay status body, net = .respond delay status body → timeoutMs < delay →
        (handleFormSubmit p st net).outcome = .failed .abortError
        ∧ surfacedToastDescription (handleFormSubmit p st net) = some timeoutErrorMsg
        ∧ (handleFormSubmit p st net).finalState.isSubmitting = false)
    ∧ timeoutErrorMsg ≠ fallbackErrorMsg
    ∧ timeoutErrorMsg ≠ serverDownMsg := by
  refine ⟨rfl, ?_, ?_, by decide, by decide⟩
  · rw [handleFormSubmit, if_pos hv, requests_eq_of_gate_off p st net hg]
    rfl
  · intro delay status body hnet hlate
    subst hnet
    rw [handleFormSubmit, if_pos hv]
    unfold onSubmitModel resolveFetch
    rw [if_neg hg]
    simp [hlate, surfacedToastDescription, surfaceCatch]

/-- Witness for C6: a concrete 30001 ms response is aborted and surfaces the
timeout text. -/
theorem claim_C6_witness :
    surfacedToastDescription (handleFormSubmit {} (sampleState goodRec none)
        (.respond 30001 200 (some emptyJsonBody))) = some timeoutErrorMsg :=
  ((claim_C6 {} (sampleState goodRec none) (.respond 30001 200 (some emptyJsonBody))
      (by decide) (by decide)).2.2.1 30001 200 (some emptyJsonBody) rfl (by decide)).2.1

/-- First truthy value in a list of possibly-undefined values — the
JavaScript `a || b` chain, written from the claim's words. -/
def firstTruthy : List (Option Json) → Option Json
  | [] => none
  | o :: rest =>
    match o with
    | some v => if truthyJson v then some v else firstTruthy rest
    | none => firstTruthy rest

/-- Modelled from the amended claim's words, the pre-remap message: a
generic status-code message for an empty or unreadable body; the raw body
text when JSON-decoding the quote-stripped body fails or yields `null`;
otherwise the first truthy of the `detail` and `message` fields coerced to
a string, or failing both the re-serialized value. -/
def claimedCoreMessage (status : Nat) (body : Option String) : String :=
  let raw := match body with
    | none => ""
    | some t => t
  if raw = "" then "Server error! Status: " ++ toString status
  else
    match parseJsonText (stripWrappingQuotes raw) with
    | none => raw
    | some Json.null => raw
    | some v =>
      jsToString ((firstTruthy [jsGetField v ("detail"), jsGetField v ("message")]).getD
        (Json.str (stringifyJson v)))

/-- Modelled from the amended claim's words: the surfaced message is the
core message above, except that a core message containing
`Failed to fetch` is replaced by the network-failure text and one
containing `Invalid or expired token` by the expired-link text. -/
def claimedErrorMessage (status : Nat) (body : Option String) : String :=
  let core := claimedCoreMessage status body
  if jsIncludes core ("Failed to fetch") then serverDownMsg
  else if jsIncludes core ("Invalid or expired token") then expiredLinkMsg
  else core

/-- Helper: the `detail` / `message` / stringify fallback chain of the
source agrees with the `firstTruthy` formulation of the claim. -/
theorem extract_chain_eq (v : Json) :
    (if truthyOpt (jsGetField v ("detail")) then jsToString ((jsGetField v ("detail")).getD Json.null)
     else if truthyOpt (jsGetField v ("message")) then jsToString ((jsGetField v ("message")).getD Json.null)
     else stringifyJson v)
    = jsToString ((firstTruthy [jsGetField v ("detail"), jsGetField v ("message")]).getD
        (Json.str (stringifyJson v))) := by
  cases hd : jsGetField v ("detail") with
  | none =>
    cases hm : jsGetField v ("message") with
    | none => simp [firstTruthy, truthyOpt, jsToString]
    | some mv =>
      by_cases htm : truthyJson mv <;> simp [firstTruthy, truthyOpt, htm, jsToString]
  | some dv =>
    by_cases htd : truthyJson dv
    · simp [firstTruthy, truthyOpt, htd]
    · cases hm : jsGetField v ("message") with
      | none => simp [firstTruthy, truthyOpt, htd, jsToString]
      | some mv =>
        by_cases htm : truthyJson mv <;> simp [firstTruthy, truthyOpt, htd, htm, jsToString]

/-- Helper: the thrown server-error message of the source equals the
claim-side core message. -/
theorem computeErrorMessage_eq_claimedCore (status : Nat) (body : Option String) :
    computeErrorMessage status body = claimedCoreMessage status body := by
  unfold computeErrorMessage claimedCoreMessage
  cases body with
  | none => simp
  | some t =>
    by_cases ht : t = ""
    · simp [ht]
    · simp only [ht, if_neg ht]
      cases hp : parseJsonText (stripWrappingQuotes t) with
      | none => simp [ht]
      | some v =>
        cases v with
        | null => simp [ht]
        | bool b => simpa [ht] using extract_chain_eq (Json.bool b)
        | num l => simpa [ht] using extract_chain_eq (Json.num l)
        | str s => simpa [ht] using extract_chain_eq (Json.str s)
        | arr xs => simpa [ht] using extract_chain_eq (Json.arr xs)
        | obj fs => simpa [ht] using extract_chain_eq (Json.obj fs)

/-- Helper: the full surfaced server-error message equals the claim-side
message with the remap exceptions. -/
theorem surfaced_eq_claimed (status : Nat) (body : Option String) :
    surfaceCatch (.error (computeErrorMessage status body)) = claimedErrorMessage status body := by
  unfold surfaceCatch claimedErrorMessage
  rw [computeErrorMessage_eq_claimedCore]

/-- The error body `{"detail":"token expired"}` of the claim's instance. -/
def jsonDetailTokenExpired : String :=
  "\x7b\"detail\":\"token expired\"\x7d"

/-- The error body `{"detail":"Invalid or expired token"}` of the
counterexample. -/
def jsonDetailInvalidToken : String :=
  "\x7b\"detail\":\"Invalid or expired token\"\x7d"

/-- Claim C4 (amended): for every non-2xx response the surfaced message is
the `detail` field of the quote-stripped, JSON-decoded body, else the
`message` field, else the re-serialized value; the raw body text when
decoding fails (or yields `null`); a generic status-code message when the
body is empty or unreadable — except that a message containing
`Failed to fetch` or `Invalid or expired token` is replaced by the
network-failure or expired-link text.  For the body
`{"detail":"token expired"}` the surfaced message is `token expired`. -/
theorem claim_C4 :
    (∀ (status : Nat) (body : Option String),
        surfaceCatch (.error (computeErrorMessage status body)) = claimedErrorMessage status body)
    ∧ (∀ (p : Props) (st : ComponentState) (delay status : Nat) (body : Option String),
        formAccepts st.values = true → ¬ (p.token ≠ "" ∧ st.isTokenValid = some false) →
        delay ≤ timeoutMs → ¬ (200 ≤ status ∧ status ≤ 299) →
          surfacedToastDescription (handleFormSubmit p st (.respond delay status body)) =
            some (claimedErrorMessage status body))
    ∧ surfaceCatch (.error (computeErrorMessage 400 (some jsonDetailTokenExpired)))
        = "token expired" := by
  refine ⟨surfaced_eq_claimed, ?_, by decide⟩
  intro p st delay status body hv hg hdelay hstatus
  rw [handleFormSubmit, if_pos hv]
  unfold onSubmitModel resolveFetch
  rw [if_neg hg]
  simp only [Nat.not_lt.mpr hdelay, if_neg hstatus, if_false]
  simp [surfacedToastDescription, surfaced_eq_claimed]

/-- Witness for C4 on a concrete 404 with the `{"detail":"token expired"}`
body. -/
theorem claim_C4_witness :
    surfacedToastDescription (handleFormSubmit {} (sampleState goodRec none)
        (.respond 0 404 (some jsonDetailTokenExpired)))
      = some (claimedErrorMessage 404 (some jsonDetailTokenExpired)) :=
  claim_C4.2.1 {} (sampleState goodRec none) 0 404 (some jsonDetailTokenExpired)
    (by decide) (by decide) (by decide) (by decide)

/-- Counterexample for C4 as stated: a body whose `detail` is
`Invalid or expired token` does not surface that detail — the catch block
remaps it to the expired-link text. -/
theorem claim_C4_counterexample :
    surfacedToastDescription (handleFormSubmit {} (sampleState goodRec none)
        (.respond 0 401 (some jsonDetailInvalidToken)))
      = some expiredLinkMsg
    ∧ expiredLinkMsg ≠ "Invalid or expired token" :=
  ⟨rfl, by decide⟩
